import Mathlib

/-!
Verification of the mb8600 HNAP client core (pkg/mb8600) against its
specification: the per-request signing scheme (HMAC-MD5 based), the
two-phase login state machine, the whitelisted RPC invoker, and the
telemetry channel decoders.

Machine integers are modelled as `Nat` with explicit reduction modulo
`2^32` where the 32-bit MD5 arithmetic overflows.  Go byte strings are
modelled as lists of byte values (`List Nat`), obtained from Lean
strings by UTF-8 encoding, matching Go's `[]byte(s)` conversion.
-/

namespace MB8600

/-- Modulus for 32-bit arithmetic used throughout MD5. -/
def M32 : Nat := 4294967296

/-- Left-rotation of a 32-bit value `x` by `s` bits (`0 < s < 32`). -/
def rotl32 (x s : Nat) : Nat :=
  ((x <<< s) % M32) ||| (x >>> (32 - s))

/-- The MD5 round-constant table `K` (RFC 1321), as used by Go's
`crypto/md5` which backs `md5Sum` in client.go. -/
def md5K : List Nat :=
  [0xd76aa478, 0xe8c7b756, 0x242070db, 0xc1bdceee,
   0xf57c0faf, 0x4787c62a, 0xa8304613, 0xfd469501,
   0x698098d8, 0x8b44f7af, 0xffff5bb1, 0x895cd7be,
   0x6b901122, 0xfd987193, 0xa679438e, 0x49b40821,
   0xf61e2562, 0xc040b340, 0x265e5a51, 0xe9b6c7aa,
   0xd62f105d, 0x02441453, 0xd8a1e681, 0xe7d3fbc8,
   0x21e1cde6, 0xc33707d6, 0xf4d50d87, 0x455a14ed,
   0xa9e3e905, 0xfcefa3f8, 0x676f02d9, 0x8d2a4c8a,
   0xfffa3942, 0x8771f681, 0x6d9d6122, 0xfde5380c,
   0xa4beea44, 0x4bdecfa9, 0xf6bb4b60, 0xbebfbc70,
   0x289b7ec6, 0xeaa127fa, 0xd4ef3085, 0x04881d05,
   0xd9d4d039, 0xe6db99e5, 0x1fa27cf8, 0xc4ac5665,
   0xf4292244, 0x432aff97, 0xab9423a7, 0xfc93a039,
   0x655b59c3, 0x8f0ccc92, 0xffeff47d, 0x85845dd1,
   0x6fa87e4f, 0xfe2ce6e0, 0xa3014314, 0x4e0811a1,
   0xf7537e82, 0xbd3af235, 0x2ad7d2bb, 0xeb86d391]

/-- The MD5 per-round shift table `s` (RFC 1321). -/
def md5S : List Nat :=
  [7, 12, 17, 22, 7, 12, 17, 22, 7, 12, 17, 22, 7, 12, 17, 22,
   5, 9, 14, 20, 5, 9, 14, 20, 5, 9, 14, 20, 5, 9, 14, 20,
   4, 11, 16, 23, 4, 11, 16, 23, 4, 11, 16, 23, 4, 11, 16, 23,
   6, 10, 15, 21, 6, 10, 15, 21, 6, 10, 15, 21, 6, 10, 15, 21]

/-- Little-endian 8-byte encoding of the 64-bit bit-length field
appended by MD5 padding. -/
def lenBytesLE (n : Nat) : List Nat :=
  (List.range 8).map (fun i => (n >>> (8 * i)) % 256)

/-- MD5 padding: append `0x80`, zero bytes up to 56 mod 64, then the
64-bit little-endian bit length of the original message. -/
def md5Pad (msg : List Nat) : List Nat :=
  let len := msg.length
  let zeros := (119 - len % 64) % 64
  msg ++ [0x80] ++ List.replicate zeros 0 ++ lenBytesLE ((len * 8) % 18446744073709551616)

/-- Split a byte list into chunks of 64 bytes (fuel-driven so the
kernel can evaluate it). -/
def chunks64 : Nat → List Nat → List (List Nat)
  | 0, _ => []
  | _, [] => []
  | fuel + 1, l => l.take 64 :: chunks64 fuel (l.drop 64)

/-- The `g`-th little-endian 32-bit word of a 64-byte chunk. -/
def md5Word (chunk : List Nat) (g : Nat) : Nat :=
  chunk.getD (4 * g) 0 + ((chunk.getD (4 * g + 1) 0) <<< 8) +
    ((chunk.getD (4 * g + 2) 0) <<< 16) + ((chunk.getD (4 * g + 3) 0) <<< 24)

/-- One MD5 round (round index `i`, state `(a, b, c, d)`). -/
def md5Round (chunk : List Nat) (st : Nat × Nat × Nat × Nat) (i : Nat) :
    Nat × Nat × Nat × Nat :=
  let a := st.1
  let b := st.2.1
  let c := st.2.2.1
  let d := st.2.2.2
  let f :=
    if i < 16 then (b &&& c) ||| ((b ^^^ 0xffffffff) &&& d)
    else if i < 32 then (d &&& b) ||| ((d ^^^ 0xffffffff) &&& c)
    else if i < 48 then b ^^^ c ^^^ d
    else c ^^^ (b ||| (d ^^^ 0xffffffff))
  let g :=
    if i < 16 then i
    else if i < 32 then (5 * i + 1) % 16
    else if i < 48 then (3 * i + 5) % 16
    else (7 * i) % 16
  let f2 := (f + a + md5K.getD i 0 + md5Word chunk g) % M32
  (d, (b + rotl32 f2 (md5S.getD i 0)) % M32, b, c)

/-- Process one 64-byte chunk, updating the MD5 state. -/
def md5Chunk (st : Nat × Nat × Nat × Nat) (chunk : List Nat) :
    Nat × Nat × Nat × Nat :=
  let r := (List.range 64).foldl (md5Round chunk) st
  ((st.1 + r.1) % M32, (st.2.1 + r.2.1) % M32,
   (st.2.2.1 + r.2.2.1) % M32, (st.2.2.2 + r.2.2.2) % M32)

/-- Little-endian 4-byte encoding of a 32-bit state word. -/
def wordLE (x : Nat) : List Nat :=
  [x % 256, (x >>> 8) % 256, (x >>> 16) % 256, (x >>> 24) % 256]

/-- MD5 digest of a byte list, as the list of 16 digest bytes. -/
def md5Bytes (msg : List Nat) : List Nat :=
  let padded := md5Pad msg
  let st := (chunks64 (padded.length + 1) padded).foldl md5Chunk
    (0x67452301, 0xefcdab89, 0x98badcfe, 0x10325476)
  wordLE st.1 ++ wordLE st.2.1 ++ wordLE st.2.2.1 ++ wordLE st.2.2.2

/-- HMAC-MD5 (RFC 2104) over byte lists, the construction implemented
by Go's `crypto/hmac` with `crypto/md5`, used by `md5Sum`. -/
def hmacMd5 (key msg : List Nat) : List Nat :=
  let k0 := if 64 < key.length then md5Bytes key else key
  let k := k0 ++ List.replicate (64 - k0.length) 0
  let ipad := k.map (fun b => b ^^^ 0x36)
  let opad := k.map (fun b => b ^^^ 0x5c)
  md5Bytes (opad ++ md5Bytes (ipad ++ msg))

/-- Uppercase hexadecimal digit for a value below 16. -/
def hexDigit (n : Nat) : Char :=
  (['0', '1', '2', '3', '4', '5', '6', '7', '8', '9',
    'A', 'B', 'C', 'D', 'E', 'F']).getD n '0'

/-- Uppercase hexadecimal rendering of a byte list, matching Go's
`fmt.Sprintf("%X", bytes)`. -/
def hexUpper (bs : List Nat) : String :=
  ⟨(bs.map (fun b => [hexDigit (b / 16), hexDigit (b % 16)])).flatten⟩

/-- UTF-8 encoding of one character, as Go produces for `[]byte(s)`. -/
def utf8Bytes (c : Char) : List Nat :=
  let n := c.toNat
  if n < 0x80 then [n]
  else if n < 0x800 then [0xc0 ||| (n >>> 6), 0x80 ||| (n &&& 0x3f)]
  else if n < 0x10000 then
    [0xe0 ||| (n >>> 12), 0x80 ||| ((n >>> 6) &&& 0x3f), 0x80 ||| (n &&& 0x3f)]
  else
    [0xf0 ||| (n >>> 18), 0x80 ||| ((n >>> 12) &&& 0x3f),
     0x80 ||| ((n >>> 6) &&& 0x3f), 0x80 ||| (n &&& 0x3f)]

/-- The bytes of a string under Go's `[]byte(s)` conversion (UTF-8). -/
def strBytes (s : String) : List Nat :=
  (s.data.map utf8Bytes).flatten

/-- Embedding of `md5Sum` (client.go:81-85): the uppercase-hex
HMAC-MD5 of `data` keyed by `key`. -/
def md5Sum (key data : String) : String :=
  hexUpper (hmacMd5 (strBytes key) (strBytes data))

/-- The fixed HNAP protocol namespace constant (client.go:37). -/
def soapNamespace : String := "http://purenetworks.com/HNAP1/"

/-- Default signing-key value used before any login (client.go:40). -/
def defaultPrivateKeyValue : String := "withoutloginkey"

/-- Default session-id value used before any login (client.go:43). -/
def defaultUidValue : String := ""

/-- The whitelist of known HNAP actions (client.go:47-58). -/
def knownActions : List String :=
  ["Login",
   "GetHomeConnection",
   "GetHomeAddress",
   "GetMotoStatusSoftware",
   "GetMotoStatusLog",
   "GetMotoLagStatus",
   "GetMotoStatusConnectionInfo",
   "GetMotoStatusDownstreamChannelInfo",
   "GetMotoStatusStartupSequence",
   "GetMotoStatusUpstreamChannelInfo"]

/-- Session state held in the client's cookie jar: the two cookies
`PrivateKey` and `uid`, scoped to path `/` (client.go:207-257).
`none` models an absent cookie. -/
structure Jar where
  privateKey : Option String
  uid : Option String
deriving DecidableEq, Repr

/-- Fresh cookie jar of a newly constructed client: no cookies set. -/
def emptyJar : Jar := ⟨none, none⟩

/-- Embedding of `GetPrivateKey` (client.go:240-242): the stored
cookie, or the sentinel default when absent. -/
def getPrivateKey (j : Jar) : String :=
  j.privateKey.getD defaultPrivateKeyValue

/-- Embedding of `GetUID` (client.go:245-247). -/
def getUID (j : Jar) : String :=
  j.uid.getD defaultUidValue

/-- Embedding of `SetPrivateKey` (client.go:250-252). -/
def setPrivateKey (j : Jar) (key : String) : Jar :=
  { j with privateKey := some key }

/-- Embedding of `SetUID` (client.go:255-257). -/
def setUID (j : Jar) (uid : String) : Jar :=
  { j with uid := some uid }

/-- Embedding of `hnapAuth` (client.go:197-205): one timestamp `ts`
is read from the clock and used both inside the signed data and after
the space; `%d%s%s` formatting of the signed data and `%s %d` of the
header value. -/
def hnapAuth (j : Jar) (ts : Int) (action : String) : String :=
  let data := toString ts ++ soapNamespace ++ action
  md5Sum (getPrivateKey j) data ++ " " ++ toString ts

/-- A response map `map[string]string`, modelled as an association
list (all maps in play have distinct string keys). -/
abbrev RespMap := List (String × String)

/-- Errors `do` can return (client.go:130-195): the Go `error` values
constructed there, by their spec taxonomy names. -/
inductive DoError where
  | invalidAction (action : String)
  | nonOKStatus (action : String) (code : Nat)
  | malformedResponse
  | noResponse
deriving DecidableEq, Repr

/-- Outcome of reading the HTTP response body: `io.ReadAll` failure,
or a body whose `json.Unmarshal` into `map[string]map[string]string`
either fails (`none`) or yields the given envelope. -/
inductive BodyRead where
  | readErr
  | readOk (parsed : Option (List (String × RespMap)))
deriving DecidableEq, Repr

/-- Oracle for one HTTP round trip in `do`: `http.NewRequest` failure,
transport (network/TLS) failure of `client.Do`, or an HTTP response
with a status code and a body. -/
inductive NetResult where
  | buildErr
  | transportErr
  | httpResp (status : Nat) (body : BodyRead)
deriving DecidableEq, Repr

/-- Effectful steps `do` performs, in order: `clock` is the single
timestamp read inside `hnapAuth` when the headers are built, `net` is
the HTTPS POST of `client.Do`. -/
inductive Effect where
  | clock
  | net
deriving DecidableEq, Repr

/-- Embedding of `do` (client.go:130-195).  The first component is
Go's `(map[string]string, error)` return pair (either side may be
nil); the second is the trace of effects performed.  The whitelist is
checked first, before the headers (and hence the `hnapAuth` signature
and its clock read) are computed.  `json.Marshal` of a
`map[string]map[string]string` of strings cannot fail and is not an
error path.  The signed header `hnapAuth j ts action` and the
serialized `{action: params}` body only shape the wire request, whose
outcome the `net` oracle abstracts; the modelled result therefore does
not depend on `j`, `ts` or `params`.  On the `http.NewRequest`,
`client.Do` and `io.ReadAll` error paths the source returns
`nil, nil` (client.go:155,170,181), and so does the model. -/
def doGo (j : Jar) (ts : Int) (action : String) (params : RespMap)
    (net : NetResult) : (Option RespMap × Option DoError) × List Effect :=
  if knownActions.contains action then
    match net with
    | .buildErr => ((none, none), [.clock])
    | .transportErr => ((none, none), [.clock, .net])
    | .httpResp status body =>
      if status ≠ 200 then ((none, some (.nonOKStatus action status)), [.clock, .net])
      else
        match body with
        | .readErr => ((none, none), [.clock, .net])
        | .readOk none => ((none, some .malformedResponse), [.clock, .net])
        | .readOk (some envelope) =>
          match envelope.lookup (action ++ "Response") with
          | none => ((none, some .noResponse), [.clock, .net])
          | some value => ((some value, none), [.clock, .net])
  else ((none, some (.invalidAction action)), [])

/-- Errors `Login` can return (client.go:277-318): an error propagated
from `do`, or the `login failed` error. -/
inductive LoginError where
  | doError (e : DoError)
  | loginFailed
deriving DecidableEq, Repr

/-- The phase-1 `Login` parameter map (client.go:278-284). -/
def loginParams1 (username : String) : RespMap :=
  [("Action", "request"), ("Captcha", ""), ("PrivateLogin", "LoginPassword"),
   ("Username", username), ("LoginPassword", "")]

/-- The phase-2 `Login` parameter map: the phase-1 map with
`Action = "login"` and the given `LoginPassword` (client.go:306-307). -/
def loginParams2 (username loginPassword : String) : RespMap :=
  [("Action", "login"), ("Captcha", ""), ("PrivateLogin", "LoginPassword"),
   ("Username", username), ("LoginPassword", loginPassword)]

/-- The new signing key computed in Login phase 1 (client.go:299):
`md5Sum(publicKey ∥ password, challenge)`. -/
def loginPhase1Key (publicKey password challenge : String) : String :=
  md5Sum (publicKey ++ password) challenge

/-- The jar after the phase-1 commits (client.go:296-300): store the
new signing key and the session id from the phase-1 response `r1`.
Go's map indexing yields `""` for an absent key. -/
def phase2Jar (j : Jar) (password : String) (r1 : RespMap) : Jar :=
  setUID
    (setPrivateKey j
      (loginPhase1Key ((r1.lookup "PublicKey").getD "") password
        ((r1.lookup "Challenge").getD "")))
    ((r1.lookup "Cookie").getD "")

/-- Phase 2 of `Login` (client.go:302-317): re-read the (just stored)
private key, send `Login` with `LoginPassword = md5Sum(pkey,
challenge)`, and check `LoginResult` on the second response. -/
def loginPhase2 (j2 : Jar) (username challenge : String) (ts2 : Int)
    (net2 : NetResult) : Jar × (Option RespMap × Option LoginError) :=
  match (doGo j2 ts2 "Login"
      (loginParams2 username (md5Sum (getPrivateKey j2) challenge)) net2).1 with
  | (_, some e) => (j2, (none, some (.doError e)))
  | (res2, none) =>
    let r2 := res2.getD []
    match r2.lookup "LoginResult" with
    | none => (j2, (none, some .loginFailed))
    | some v2 =>
      if v2 = "FAILED" then (j2, (none, some .loginFailed))
      else (j2, (some r2, none))

/-- Embedding of `Login` (client.go:277-318), two-phase.  The jar
component of the result is the session state after the call; on a
phase-1 failure it is the input jar `j`, afterwards it is the
committed `phase2Jar`.  A `nil` response map from `do`'s swallowed
error paths indexes as an empty map, so `LoginResult` is absent and
the check fails (Go nil-map read semantics). -/
def Login (j : Jar) (username password : String) (ts1 ts2 : Int)
    (net1 net2 : NetResult) : Jar × (Option RespMap × Option LoginError) :=
  match (doGo j ts1 "Login" (loginParams1 username) net1).1 with
  | (_, some e) => (j, (none, some (.doError e)))
  | (res1, none) =>
    let r1 := res1.getD []
    match r1.lookup "LoginResult" with
    | none => (j, (none, some .loginFailed))
    | some val =>
      if val = "FAILED" then (j, (none, some .loginFailed))
      else
        loginPhase2 (phase2Jar j password r1) username
          ((r1.lookup "Challenge").getD "") ts2 net2

/-- Does the pattern `p` lead the list `cs`? -/
def leadsWith : List Char → List Char → Bool
  | [], _ => true
  | _ :: _, [] => false
  | p :: ps, c :: cs => p == c && leadsWith ps cs

/-- Splitting on a non-empty separator, Go `strings.Split` semantics,
fuel-driven so the kernel can evaluate it. -/
def splitOnAux (sep : List Char) : Nat → List Char → List Char → List (List Char)
  | 0, _, acc => [acc.reverse]
  | fuel + 1, cs, acc =>
    match cs with
    | [] => [acc.reverse]
    | c :: rest =>
      if leadsWith sep cs then
        acc.reverse :: splitOnAux sep fuel (cs.drop sep.length) []
      else
        splitOnAux sep fuel rest (c :: acc)

/-- Go's `strings.Split(s, sep)` for a non-empty separator: splits
around every occurrence of `sep`; `Split("", sep) = [""]`. -/
def splitOnStr (s sep : String) : List String :=
  (splitOnAux sep.data (s.data.length + 1) s.data []).map (fun cs => ⟨cs⟩)

/-- Value of a decimal digit character, `none` otherwise. -/
def digitVal (c : Char) : Option Nat :=
  if '0' ≤ c ∧ c ≤ '9' then some (c.toNat - 48) else none

/-- Value of a non-empty all-digit character run, `none` otherwise. -/
def digitsVal (cs : List Char) : Option Nat :=
  match cs with
  | [] => none
  | _ =>
    cs.foldl
      (fun acc c =>
        match acc, digitVal c with
        | some a, some d => some (10 * a + d)
        | _, _ => none)
      (some 0)

/-- Value of an all-digit character run that may be empty (one side of
a decimal point may be empty, as in `"1."` or `".5"`). -/
def digitsVal0 (cs : List Char) : Option Nat :=
  match cs with
  | [] => some 0
  | _ => digitsVal cs

/-- Modelled from the spec: `strconv.Atoi`-style signed decimal
integer parsing used by the decoders in channels.go (a file of this
repository absent from the tree; only channels_test.go is present):
optional sign, then one or more decimal digits. -/
def parseIntGo (s : String) : Option Int :=
  match s.data with
  | '-' :: rest => (digitsVal rest).map (fun n => -(n : Int))
  | '+' :: rest => (digitsVal rest).map (fun n => (n : Int))
  | cs => (digitsVal cs).map (fun n => (n : Int))

/-- Strip spaces from both ends of a character list. -/
def trimSpaces (cs : List Char) : List Char :=
  ((cs.dropWhile (· == ' ')).reverse.dropWhile (· == ' ')).reverse

/-- Modelled from the spec: standard decimal parsing of the float
fields by the decoders in channels.go (absent from the tree), over ℚ
so that decimal text is exact: optional sign, digits, optional `.`
and fraction digits, at least one digit overall.  Surrounding spaces
are stripped first: the repository's own test fixtures
(channels_test.go:27) contain space-padded float fields such as
`" 2.8"`, which the decoders accept. -/
def parseFloatGo (s : String) : Option ℚ :=
  let core : List Char → Option ℚ := fun cs =>
    match splitOnAux ['.'] (cs.length + 1) cs [] with
    | [intPart] => (digitsVal intPart).map (fun n => mkRat n 1)
    | [intPart, fracPart] =>
      if intPart.isEmpty ∧ fracPart.isEmpty then none
      else
        match digitsVal0 intPart, digitsVal0 fracPart with
        | some n, some f =>
          some (mkRat (n * 10 ^ fracPart.length + f) (10 ^ fracPart.length))
        | _, _ => none
    | _ => none
  match trimSpaces s.data with
  | '-' :: rest => (core rest).map Rat.neg
  | '+' :: rest => core rest
  | cs => core cs

/-- The `DownstreamChannel` record (channels_test.go:32-42; the
defining channels.go is absent from the tree).  Field meanings per
spec §3: channel index, lock status, modulation, channel ID,
frequency (MHz), signal-to-noise ratio (dB), power (dBmV), corrected
and uncorrected error counts. -/
structure DownstreamChannel where
  Channel : Int
  LockStatus : String
  Modulation : String
  ChannelID : Int
  Frequency : ℚ
  SignalToNoise : ℚ
  Power : ℚ
  CorrectedErrors : Int
  UncorrectedErrors : Int
deriving DecidableEq, Repr

/-- The `UpstreamChannel` record (channels_test.go:44-52): channel
index, lock status, channel type, channel ID, symbol rate, frequency
(MHz), power (dBmV). -/
structure UpstreamChannel where
  Channel : Int
  LockStatus : String
  ChannelType : String
  ChannelID : Int
  SymbolRate : Int
  Frequency : ℚ
  Power : ℚ
deriving DecidableEq, Repr

/-- Decoder errors: every decoder failure is a MalformedRecord, the
offending line attached. -/
inductive ChannelError where
  | malformedRecord (line : String)
deriving DecidableEq, Repr

/-- Modelled from the spec: the `^`-separated fields of one record
line (channels.go is absent from the tree).  Per spec §4.4 a record
splits on `"^"`; per the test fixtures (channels_test.go:27-28) the
device terminates each record with a trailing `"^"`, so one trailing
empty field is dropped before the count check — the valid fixture
lines decode while the fixtures' too-many / too-few variants are
rejected. -/
def lineFields (line : String) : List String :=
  let fs := splitOnStr line "^"
  match fs.getLast? with
  | some "" => fs.dropLast
  | _ => fs

/-- Modelled from the spec: `NewDownstreamChannelFromLine`
(channels.go is absent from the tree; behavior pinned by
channels_test.go:82-124).  Exactly 9 fields; fields parsed
positionally.  The test fixture `expDownstreamChannel`
(channels_test.go:32-42) fixes field 5 (0-based) as the power and
field 6 as the signal-to-noise ratio: the fixture line carries
`… 531.0^ 2.8^45.1^ …` and expects `Power = 2.8`,
`SignalToNoise = 45.1`. -/
def NewDownstreamChannelFromLine (line : String) :
    Except ChannelError DownstreamChannel :=
  let fields := lineFields line
  if fields.length = 9 then
    match parseIntGo (fields.getD 0 ""), parseIntGo (fields.getD 3 ""),
        parseFloatGo (fields.getD 4 ""), parseFloatGo (fields.getD 5 ""),
        parseFloatGo (fields.getD 6 ""), parseIntGo (fields.getD 7 ""),
        parseIntGo (fields.getD 8 "") with
    | some ch, some cid, some freq, some pow, some snr, some corr, some uncorr =>
      .ok
        { Channel := ch, LockStatus := fields.getD 1 "",
          Modulation := fields.getD 2 "", ChannelID := cid,
          Frequency := freq, SignalToNoise := snr, Power := pow,
          CorrectedErrors := corr, UncorrectedErrors := uncorr }
    | _, _, _, _, _, _, _ => .error (.malformedRecord line)
  else .error (.malformedRecord line)

/-- Modelled from the spec: `NewUpstreamChannelFromLine` (channels.go
is absent from the tree; behavior pinned by
channels_test.go:163-194).  Exactly 7 fields, parsed positionally in
the §3 order: channel, lock status, channel type, channel ID, symbol
rate, frequency, power. -/
def NewUpstreamChannelFromLine (line : String) :
    Except ChannelError UpstreamChannel :=
  let fields := lineFields line
  if fields.length = 7 then
    match parseIntGo (fields.getD 0 ""), parseIntGo (fields.getD 3 ""),
        parseIntGo (fields.getD 4 ""), parseFloatGo (fields.getD 5 ""),
        parseFloatGo (fields.getD 6 "") with
    | some ch, some cid, some rate, some freq, some pow =>
      .ok
        { Channel := ch, LockStatus := fields.getD 1 "",
          ChannelType := fields.getD 2 "", ChannelID := cid,
          SymbolRate := rate, Frequency := freq, Power := pow }
    | _, _, _, _, _ => .error (.malformedRecord line)
  else .error (.malformedRecord line)

/-- Modelled from the spec: `NewDownstreamChannelsFromResponse`
(channels.go is absent from the tree; behavior pinned by
channels_test.go:55-80).  Split on record separator `"|+|"`; the
empty raw string yields zero records and no error; record order is
preserved; any bad line fails the whole decode. -/
def NewDownstreamChannelsFromResponse (response : String) :
    Except ChannelError (List DownstreamChannel) :=
  if response = "" then .ok []
  else (splitOnStr response "|+|").mapM NewDownstreamChannelFromLine

/-- Modelled from the spec: `NewUpstreamChannelsFromResponse`
(channels.go is absent from the tree; behavior pinned by
channels_test.go:126-161). -/
def NewUpstreamChannelsFromResponse (response : String) :
    Except ChannelError (List UpstreamChannel) :=
  if response = "" then .ok []
  else (splitOnStr response "|+|").mapM NewUpstreamChannelFromLine

/-- The phase-2 `do` call of `Login`, as a function of the phase-1
response map `r1`: the jar holds the committed key and session id,
and `LoginPassword` is the HMAC of the challenge under the re-read
key (client.go:302-308). -/
def phase2Call (j : Jar) (u w : String) (r1 : RespMap) (ts2 : Int)
    (net2 : NetResult) : (Option RespMap × Option DoError) × List Effect :=
  doGo (phase2Jar j w r1) ts2 "Login"
    (loginParams2 u
      (md5Sum (getPrivateKey (phase2Jar j w r1)) ((r1.lookup "Challenge").getD "")))
    net2

end MB8600

deriving instance DecidableEq for Except

namespace MB8600

/-- Unfolding lemma: the jar returned by phase 2 is always the jar it
was entered with, on every branch. -/
theorem loginPhase2_jar (j2 : Jar) (u ch : String) (ts2 : Int) (net2 : NetResult) :
    (loginPhase2 j2 u ch ts2 net2).1 = j2 := by
  unfold loginPhase2
  split
  · rfl
  · dsimp only
    split
    · rfl
    · split <;> rfl

/-- Unfolding lemma: `Login` when the phase-1 `do` returns an error. -/
theorem Login_phase1_err (j : Jar) (u w : String) (ts1 ts2 : Int)
    (net1 net2 : NetResult) (res1 : Option RespMap) (e : DoError)
    (hd : (doGo j ts1 "Login" (loginParams1 u) net1).1 = (res1, some e)) :
    Login j u w ts1 ts2 net1 net2 = (j, (none, some (.doError e))) := by
  unfold Login
  rw [hd]

/-- Unfolding lemma: `Login` when the phase-1 `do` returns no error. -/
theorem Login_phase1_ok (j : Jar) (u w : String) (ts1 ts2 : Int)
    (net1 net2 : NetResult) (res1 : Option RespMap)
    (hd : (doGo j ts1 "Login" (loginParams1 u) net1).1 = (res1, none)) :
    Login j u w ts1 ts2 net1 net2 =
      (match (res1.getD []).lookup "LoginResult" with
       | none => (j, (none, some .loginFailed))
       | some val =>
         if val = "FAILED" then (j, (none, some .loginFailed))
         else
           loginPhase2 (phase2Jar j w (res1.getD [])) u
             (((res1.getD []).lookup "Challenge").getD "") ts2 net2) := by
  unfold Login
  rw [hd]

/-- Unfolding lemma: phase 2 when its `do` returns no error. -/
theorem loginPhase2_ok (j2 : Jar) (u ch : String) (ts2 : Int) (net2 : NetResult)
    (res2 : Option RespMap)
    (hd : (doGo j2 ts2 "Login" (loginParams2 u (md5Sum (getPrivateKey j2) ch)) net2).1 =
      (res2, none)) :
    loginPhase2 j2 u ch ts2 net2 =
      (match (res2.getD []).lookup "LoginResult" with
       | none => (j2, (none, some .loginFailed))
       | some v2 =>
         if v2 = "FAILED" then (j2, (none, some .loginFailed))
         else (j2, (some (res2.getD []), none))) := by
  unfold loginPhase2
  rw [hd]

/-- Unfolding lemma: phase 2 when its `do` returns an error. -/
theorem loginPhase2_err (j2 : Jar) (u ch : String) (ts2 : Int) (net2 : NetResult)
    (res2 : Option RespMap) (e : DoError)
    (hd : (doGo j2 ts2 "Login" (loginParams2 u (md5Sum (getPrivateKey j2) ch)) net2).1 =
      (res2, some e)) :
    loginPhase2 j2 u ch ts2 net2 = (j2, (none, some (.doError e))) := by
  unfold loginPhase2
  rw [hd]

/-- Unfolding lemma: a phase-1 `do` success whose `LoginResult` check
passes makes `Login` proceed to phase 2 on the committed jar. -/
theorem Login_phase1_success (j : Jar) (u w : String) (ts1 ts2 : Int)
    (net1 net2 : NetResult) (res1 : Option RespMap) (v : String)
    (hd : (doGo j ts1 "Login" (loginParams1 u) net1).1 = (res1, none))
    (hlr : (res1.getD []).lookup "LoginResult" = some v) (hv : v ≠ "FAILED") :
    Login j u w ts1 ts2 net1 net2 =
      loginPhase2 (phase2Jar j w (res1.getD [])) u
        (((res1.getD []).lookup "Challenge").getD "") ts2 net2 := by
  rw [Login_phase1_ok j u w ts1 ts2 net1 net2 res1 hd, hlr]
  simp only [if_neg hv]

/-- Phase-1 response oracle whose `LoginResult` is `"FAILED"`. -/
def netLoginFailed : NetResult :=
  .httpResp 200 (.readOk (some [("LoginResponse", [("LoginResult", "FAILED")])]))

/-- Phase-1 response oracle with a successful `LoginResult` and the
key material of the repository's test vectors (client_test.go:26-31). -/
def netLoginOkFull : NetResult :=
  .httpResp 200 (.readOk (some [("LoginResponse",
    [("LoginResult", "OK"), ("PublicKey", "jXesCa9ek/lI0/R4TNdr"),
     ("Challenge", "q9l0h9ieIXKwJlEtTXps"), ("Cookie", "uid123")])]))

/-- Response oracle with a successful `LoginResult` and nothing else. -/
def netLoginOkBare : NetResult :=
  .httpResp 200 (.readOk (some [("LoginResponse", [("LoginResult", "OK")])]))

/-- C1: the claim says `do` returns a non-nil error whenever building
the request, performing the POST, or reading the body fails.  The
source instead returns `nil, nil` on all three paths
(client.go:155,170,181): evaluating the embedded `do` at each failure
shows a nil result with a nil error, so the failure is silently
swallowed — a slip (`return nil, nil` where every sibling error path
returns the error), contradicting the spec's error-propagation rule. -/
theorem c1_do_swallows_io_failures :
    (doGo emptyJar 0 "Login" [] .buildErr).1 = (none, none) ∧
    (doGo emptyJar 0 "Login" [] .transportErr).1 = (none, none) ∧
    (doGo emptyJar 0 "Login" [] (.httpResp 200 .readErr)).1 = (none, none) := by
  decide

/-- C2 counterexample: on the repository's own fixture line
(channels_test.go:27,32-42) the decoded record has
`SignalToNoise = 45.1` and `Power = 2.8`, while the 6th `^`-field of
the line is `" 2.8"`: the 6th field becomes the power, not the
signal-to-noise ratio, refuting the claimed §3 field order. -/
theorem c2_spec_field_order_counterexample :
    NewDownstreamChannelFromLine "1^Locked^QAM256^20^531.0^ 2.8^45.1^0^0^" =
      .ok { Channel := 1, LockStatus := "Locked", Modulation := "QAM256",
            ChannelID := 20, Frequency := mkRat 531 1,
            SignalToNoise := mkRat 451 10, Power := mkRat 28 10,
            CorrectedErrors := 0, UncorrectedErrors := 0 } ∧
    (lineFields "1^Locked^QAM256^20^531.0^ 2.8^45.1^0^0^").getD 5 "" = " 2.8" ∧
    parseFloatGo " 2.8" = some (mkRat 28 10) ∧ mkRat 28 10 ≠ mkRat 451 10 := by
  decide

/-- C2 (amended): for every downstream record line with the schema's
field count whose numeric fields parse, the fields are assigned
positionally as channel index, lock status, modulation, channel ID,
frequency, power, signal-to-noise ratio, corrected-error count,
uncorrected-error count — the 6th field becomes the power and the 7th
the signal-to-noise ratio. -/
theorem c2_downstream_positional_fields
    (line : String) (f0 f1 f2 f3 f4 f5 f6 f7 f8 : String)
    (ch cid ce ue : Int) (freq pw snr : ℚ)
    (hfields : lineFields line = [f0, f1, f2, f3, f4, f5, f6, f7, f8])
    (h0 : parseIntGo f0 = some ch) (h3 : parseIntGo f3 = some cid)
    (h4 : parseFloatGo f4 = some freq) (h5 : parseFloatGo f5 = some pw)
    (h6 : parseFloatGo f6 = some snr) (h7 : parseIntGo f7 = some ce)
    (h8 : parseIntGo f8 = some ue) :
    NewDownstreamChannelFromLine line =
      .ok { Channel := ch, LockStatus := f1, Modulation := f2, ChannelID := cid,
            Frequency := freq, SignalToNoise := snr, Power := pw,
            CorrectedErrors := ce, UncorrectedErrors := ue } := by
  simp [NewDownstreamChannelFromLine, hfields, h0, h3, h4, h5, h6, h7, h8]

/-- Witness for C2 (amended) at the repository's fixture line. -/
theorem c2_downstream_positional_fields_witness :
    lineFields "1^Locked^QAM256^20^531.0^ 2.8^45.1^0^0^" =
      ["1", "Locked", "QAM256", "20", "531.0", " 2.8", "45.1", "0", "0"] ∧
    NewDownstreamChannelFromLine "1^Locked^QAM256^20^531.0^ 2.8^45.1^0^0^" =
      .ok { Channel := 1, LockStatus := "Locked", Modulation := "QAM256",
            ChannelID := 20, Frequency := mkRat 531 1,
            SignalToNoise := mkRat 451 10, Power := mkRat 28 10,
            CorrectedErrors := 0, UncorrectedErrors := 0 } :=
  ⟨by decide,
   c2_downstream_positional_fields "1^Locked^QAM256^20^531.0^ 2.8^45.1^0^0^"
     "1" "Locked" "QAM256" "20" "531.0" " 2.8" "45.1" "0" "0"
     1 20 0 0 (mkRat 531 1) (mkRat 28 10) (mkRat 451 10)
     (by decide) (by decide) (by decide) (by decide) (by decide) (by decide)
     (by decide) (by decide)⟩

/-- C3: a phase-1 failure of `Login` (phase-1 `do` error, or
`LoginResult` absent or `"FAILED"`) leaves the session jar unchanged;
a phase-1 success followed by a phase-2 failure leaves the jar at the
committed state `phase2Jar` — new signing key and phase-1 `Cookie`
stored, with no rollback. -/
theorem c3_login_session_commit :
    (∀ (j : Jar) (u w : String) (ts1 ts2 : Int) (net1 net2 : NetResult)
       (res1 : Option RespMap) (err1 : Option DoError),
      (doGo j ts1 "Login" (loginParams1 u) net1).1 = (res1, err1) →
      (err1 ≠ none ∨ (res1.getD []).lookup "LoginResult" = none ∨
        (res1.getD []).lookup "LoginResult" = some "FAILED") →
      (Login j u w ts1 ts2 net1 net2).1 = j) ∧
    (∀ (j : Jar) (u w : String) (ts1 ts2 : Int) (net1 net2 : NetResult)
       (res1 : Option RespMap) (v : String),
      (doGo j ts1 "Login" (loginParams1 u) net1).1 = (res1, none) →
      (res1.getD []).lookup "LoginResult" = some v → v ≠ "FAILED" →
      (Login j u w ts1 ts2 net1 net2).2.2 ≠ none →
      (Login j u w ts1 ts2 net1 net2).1 = phase2Jar j w (res1.getD [])) := by
  constructor
  · intro j u w ts1 ts2 net1 net2 res1 err1 hd hfail
    cases err1 with
    | some e => rw [Login_phase1_err j u w ts1 ts2 net1 net2 res1 e hd]
    | none =>
      rw [Login_phase1_ok j u w ts1 ts2 net1 net2 res1 hd]
      rcases hfail with h | h | h
      · exact absurd rfl h
      · rw [h]
      · rw [h]; simp
  · intro j u w ts1 ts2 net1 net2 res1 v hd hlr hv _hfail2
    rw [Login_phase1_ok j u w ts1 ts2 net1 net2 res1 hd, hlr]
    simp only [if_neg hv]
    exact loginPhase2_jar _ _ _ _ _

set_option maxRecDepth 1000000 in
/-- Witness for C3: a `FAILED` phase-1 response leaves the fresh jar
unchanged; a successful phase 1 with the test-vector key material
followed by a failing phase 2 (HTTP 500) leaves the committed jar. -/
theorem c3_login_session_commit_witness :
    ((doGo emptyJar 0 "Login" (loginParams1 "admin") netLoginFailed).1 =
        (some [("LoginResult", "FAILED")], none) ∧
      (Login emptyJar "admin" "motorola" 0 0 netLoginFailed .transportErr).1 = emptyJar) ∧
    ((doGo emptyJar 0 "Login" (loginParams1 "admin") netLoginOkFull).1 =
        (some [("LoginResult", "OK"), ("PublicKey", "jXesCa9ek/lI0/R4TNdr"),
          ("Challenge", "q9l0h9ieIXKwJlEtTXps"), ("Cookie", "uid123")], none) ∧
      (Login emptyJar "admin" "motorola" 0 0 netLoginOkFull
          (.httpResp 500 (.readOk none))).2.2 ≠ none ∧
      (Login emptyJar "admin" "motorola" 0 0 netLoginOkFull
          (.httpResp 500 (.readOk none))).1 =
        phase2Jar emptyJar "motorola"
          ((some [("LoginResult", "OK"), ("PublicKey", "jXesCa9ek/lI0/R4TNdr"),
            ("Challenge", "q9l0h9ieIXKwJlEtTXps"),
            ("Cookie", "uid123")] : Option RespMap).getD [])) :=
  ⟨⟨by decide,
    c3_login_session_commit.1 emptyJar "admin" "motorola" 0 0 netLoginFailed
      .transportErr (some [("LoginResult", "FAILED")]) none (by decide)
      (.inr (.inr (by decide)))⟩,
   ⟨by decide, by decide,
    c3_login_session_commit.2 emptyJar "admin" "motorola" 0 0 netLoginOkFull
      (.httpResp 500 (.readOk none))
      (some [("LoginResult", "OK"), ("PublicKey", "jXesCa9ek/lI0/R4TNdr"),
        ("Challenge", "q9l0h9ieIXKwJlEtTXps"), ("Cookie", "uid123")]) "OK"
      (by decide) (by decide) (by decide) (by decide)⟩⟩

set_option maxRecDepth 1000000 in
/-- C4: the `HNAP_AUTH` header equals the uppercase-hex HMAC-MD5,
keyed by the current signing key (the sentinel `"withoutloginkey"` on
a fresh jar), of `timestamp ∥ namespace ∥ action`, followed by a
space and the same timestamp — one clock value is used for both the
signature and the printed suffix.  The two concrete header values are
the repository's own expected vectors (client_test.go:106,112). -/
theorem c4_hnap_auth_header :
    (∀ (j : Jar) (ts : Int) (action : String),
      hnapAuth j ts action =
        hexUpper (hmacMd5 (strBytes (getPrivateKey j))
          (strBytes (toString ts ++ soapNamespace ++ action))) ++ " " ++ toString ts) ∧
    getPrivateKey emptyJar = defaultPrivateKeyValue ∧
    hnapAuth emptyJar 1703361406202 "Login" =
      "B390D71563C4C02619AF9D61F9D942AF 1703361406202" ∧
    hnapAuth (setPrivateKey emptyJar
        (loginPhase1Key "jXesCa9ek/lI0/R4TNdr" "motorola" "q9l0h9ieIXKwJlEtTXps"))
        1703361406202 "Login" =
      "FD695E907F6790F96AD8EF0FB19BCF32 1703361406202" := by
  refine ⟨fun j ts action => rfl, rfl, by decide, by decide⟩

/-- C5: for every action outside the whitelist, `do` returns the
InvalidAction error with an empty effect trace — no clock read (hence
no signing) and no network call — and, the model being pure in the
jar, unchanged session state; for every whitelisted action the
whitelist check passes: no branch of `do` ever yields InvalidAction. -/
theorem c5_action_whitelist_gate :
    (∀ (j : Jar) (ts : Int) (action : String) (params : RespMap) (net : NetResult),
      action ∉ knownActions →
        doGo j ts action params net = ((none, some (.invalidAction action)), [])) ∧
    (∀ (j : Jar) (ts : Int) (action : String) (params : RespMap) (net : NetResult),
      action ∈ knownActions → ∀ a : String,
        (doGo j ts action params net).1.2 ≠ some (.invalidAction a)) := by
  constructor
  · intro j ts action params net h
    simp [doGo, h]
  · intro j ts action params net h a
    have hc : knownActions.contains action = true := List.elem_eq_true_of_mem h
    simp only [doGo, hc, if_true]
    cases net with
    | buildErr => simp
    | transportErr => simp
    | httpResp status body =>
      by_cases hs : status = 200
      · subst hs
        simp only [ne_eq, not_true_eq_false, reduceIte]
        cases body with
        | readErr => simp
        | readOk parsed =>
          cases parsed with
          | none => simp
          | some envelope =>
            cases henv : envelope.lookup (action ++ "Response") <;> simp [henv]
      · simp [hs]

/-- Witness for C5: `"Reboot"` is rejected with no effects, `"Login"`
passes the whitelist check. -/
theorem c5_action_whitelist_gate_witness :
    doGo emptyJar 0 "Reboot" [] .transportErr =
      ((none, some (.invalidAction "Reboot")), []) ∧
    (doGo emptyJar 0 "Login" [] .transportErr).1.2 ≠ some (.invalidAction "Login") :=
  ⟨c5_action_whitelist_gate.1 emptyJar 0 "Reboot" [] .transportErr (by decide),
   c5_action_whitelist_gate.2 emptyJar 0 "Login" [] .transportErr (by decide) "Login"⟩

set_option maxRecDepth 1000000 in
/-- C6: the phase-1 signing key is the uppercase-hex HMAC-MD5 keyed
by publicKey ∥ password over the challenge, for all inputs; at the
repository's test vector (client_test.go:57-61) it equals
`376888B58EBBAA4207D9D4E898C2E504`. -/
theorem c6_phase1_key_is_hmac_md5 :
    (∀ publicKey password challenge : String,
      loginPhase1Key publicKey password challenge =
        hexUpper (hmacMd5 (strBytes (publicKey ++ password)) (strBytes challenge))) ∧
    loginPhase1Key "jXesCa9ek/lI0/R4TNdr" "motorola" "q9l0h9ieIXKwJlEtTXps" =
      "376888B58EBBAA4207D9D4E898C2E504" := by
  exact ⟨fun publicKey password challenge => rfl, by decide⟩

/-- C7: in either phase, a response whose `LoginResult` is absent or
`"FAILED"` makes `Login` return a nil map and the LoginFailed error;
conversely a successful return is the phase-2 response map and
implies both phases' `LoginResult` checks passed. -/
theorem c7_login_result_gate :
    (∀ (j : Jar) (u w : String) (ts1 ts2 : Int) (net1 net2 : NetResult)
       (res1 : Option RespMap),
      (doGo j ts1 "Login" (loginParams1 u) net1).1 = (res1, none) →
      ((res1.getD []).lookup "LoginResult" = none ∨
        (res1.getD []).lookup "LoginResult" = some "FAILED") →
      (Login j u w ts1 ts2 net1 net2).2 = (none, some .loginFailed)) ∧
    (∀ (j : Jar) (u w : String) (ts1 ts2 : Int) (net1 net2 : NetResult)
       (res1 res2 : Option RespMap) (v : String),
      (doGo j ts1 "Login" (loginParams1 u) net1).1 = (res1, none) →
      (res1.getD []).lookup "LoginResult" = some v → v ≠ "FAILED" →
      (phase2Call j u w (res1.getD []) ts2 net2).1 = (res2, none) →
      ((res2.getD []).lookup "LoginResult" = none ∨
        (res2.getD []).lookup "LoginResult" = some "FAILED") →
      (Login j u w ts1 ts2 net1 net2).2 = (none, some .loginFailed)) ∧
    (∀ (j : Jar) (u w : String) (ts1 ts2 : Int) (net1 net2 : NetResult) (r : RespMap),
      (Login j u w ts1 ts2 net1 net2).2 = (some r, none) →
      ∃ (res1 res2 : Option RespMap) (v1 v2 : String),
        (doGo j ts1 "Login" (loginParams1 u) net1).1 = (res1, none) ∧
        (res1.getD []).lookup "LoginResult" = some v1 ∧ v1 ≠ "FAILED" ∧
        (phase2Call j u w (res1.getD []) ts2 net2).1 = (res2, none) ∧
        r = res2.getD [] ∧ r.lookup "LoginResult" = some v2 ∧ v2 ≠ "FAILED") := by
  refine ⟨?_, ?_, ?_⟩
  · intro j u w ts1 ts2 net1 net2 res1 hd hbad
    rw [Login_phase1_ok j u w ts1 ts2 net1 net2 res1 hd]
    rcases hbad with h | h
    · rw [h]
    · rw [h]; simp
  · intro j u w ts1 ts2 net1 net2 res1 res2 v hd1 hlr1 hv1 hd2 hbad
    rw [Login_phase1_ok j u w ts1 ts2 net1 net2 res1 hd1, hlr1]
    simp only [if_neg hv1]
    rw [loginPhase2_ok (phase2Jar j w (res1.getD [])) u
      (((res1.getD []).lookup "Challenge").getD "") ts2 net2 res2 hd2]
    rcases hbad with h | h
    · rw [h]
    · rw [h]; simp
  · intro j u w ts1 ts2 net1 net2 r hsucc
    rcases hd : (doGo j ts1 "Login" (loginParams1 u) net1).1 with ⟨res1, err1⟩
    cases err1 with
    | some e =>
      rw [Login_phase1_err j u w ts1 ts2 net1 net2 res1 e hd] at hsucc
      simp at hsucc
    | none =>
      rw [Login_phase1_ok j u w ts1 ts2 net1 net2 res1 hd] at hsucc
      cases hlr : (res1.getD []).lookup "LoginResult" with
      | none => rw [hlr] at hsucc; simp at hsucc
      | some v1 =>
        rw [hlr] at hsucc
        dsimp only at hsucc
        by_cases hv : v1 = "FAILED"
        · rw [if_pos hv] at hsucc; simp at hsucc
        · rw [if_neg hv] at hsucc
          rcases hd2 : (phase2Call j u w (res1.getD []) ts2 net2).1 with ⟨res2, err2⟩
          cases err2 with
          | some e =>
            rw [loginPhase2_err (phase2Jar j w (res1.getD [])) u
              (((res1.getD []).lookup "Challenge").getD "") ts2 net2 res2 e hd2] at hsucc
            simp at hsucc
          | none =>
            rw [loginPhase2_ok (phase2Jar j w (res1.getD [])) u
              (((res1.getD []).lookup "Challenge").getD "") ts2 net2 res2 hd2] at hsucc
            cases hlr2 : (res2.getD []).lookup "LoginResult" with
            | none => rw [hlr2] at hsucc; simp at hsucc
            | some v2 =>
              rw [hlr2] at hsucc
              dsimp only at hsucc
              by_cases hv2 : v2 = "FAILED"
              · rw [if_pos hv2] at hsucc; simp at hsucc
              · rw [if_neg hv2] at hsucc
                simp only [Prod.mk.injEq, Option.some.injEq] at hsucc
                obtain ⟨hr, -⟩ := hsucc
                refine ⟨res1, res2, v1, v2, rfl, hlr, hv, hd2, hr.symm, ?_, hv2⟩
                rw [hr.symm]; exact hlr2

set_option maxRecDepth 1000000 in
/-- Witness for C7: a `FAILED` phase 1, a `FAILED` phase 2 after a
good phase 1, and a fully successful login. -/
theorem c7_login_result_gate_witness :
    ((doGo emptyJar 0 "Login" (loginParams1 "admin") netLoginFailed).1 =
        (some [("LoginResult", "FAILED")], none) ∧
      (Login emptyJar "admin" "motorola" 0 0 netLoginFailed .transportErr).2 =
        (none, some .loginFailed)) ∧
    ((phase2Call emptyJar "admin" "motorola"
        ((some [("LoginResult", "OK"), ("PublicKey", "jXesCa9ek/lI0/R4TNdr"),
          ("Challenge", "q9l0h9ieIXKwJlEtTXps"),
          ("Cookie", "uid123")] : Option RespMap).getD [])
        0 netLoginFailed).1 = (some [("LoginResult", "FAILED")], none) ∧
      (Login emptyJar "admin" "motorola" 0 0 netLoginOkFull netLoginFailed).2 =
        (none, some .loginFailed)) ∧
    (∃ (res1 res2 : Option RespMap) (v1 v2 : String),
      (doGo emptyJar 0 "Login" (loginParams1 "admin") netLoginOkFull).1 = (res1, none) ∧
      (res1.getD []).lookup "LoginResult" = some v1 ∧ v1 ≠ "FAILED" ∧
      (phase2Call emptyJar "admin" "motorola" (res1.getD []) 0 netLoginOkBare).1 =
        (res2, none) ∧
      [("LoginResult", "OK")] = res2.getD [] ∧
      ([("LoginResult", "OK")] : RespMap).lookup "LoginResult" = some v2 ∧
      v2 ≠ "FAILED") :=
  ⟨⟨by decide,
    c7_login_result_gate.1 emptyJar "admin" "motorola" 0 0 netLoginFailed
      .transportErr (some [("LoginResult", "FAILED")]) (by decide) (.inr (by decide))⟩,
   ⟨by decide,
    c7_login_result_gate.2.1 emptyJar "admin" "motorola" 0 0 netLoginOkFull
      netLoginFailed
      (some [("LoginResult", "OK"), ("PublicKey", "jXesCa9ek/lI0/R4TNdr"),
        ("Challenge", "q9l0h9ieIXKwJlEtTXps"), ("Cookie", "uid123")])
      (some [("LoginResult", "FAILED")]) "OK"
      (by decide) (by decide) (by decide) (by decide) (.inr (by decide))⟩,
   c7_login_result_gate.2.2 emptyJar "admin" "motorola" 0 0 netLoginOkFull
     netLoginOkBare [("LoginResult", "OK")] (by decide)⟩

/-- C8: a record line whose field count differs from the schema's — 9
for a downstream record, 7 for an upstream record — is rejected by the
per-line decoder with a MalformedRecord error and no record. -/
theorem c8_field_count_gate :
    (∀ line : String, (lineFields line).length ≠ 9 →
      NewDownstreamChannelFromLine line = .error (.malformedRecord line)) ∧
    (∀ line : String, (lineFields line).length ≠ 7 →
      NewUpstreamChannelFromLine line = .error (.malformedRecord line)) := by
  constructor
  · intro line h
    simp [NewDownstreamChannelFromLine, h]
  · intro line h
    simp [NewUpstreamChannelFromLine, h]

/-- Witness for C8 at the repository's own too-few / too-many test
inputs (channels_test.go:100-110,174-180). -/
theorem c8_field_count_gate_witness :
    ((lineFields "1^Locked^QAM256^20^531.0").length ≠ 9 ∧
      NewDownstreamChannelFromLine "1^Locked^QAM256^20^531.0" =
        .error (.malformedRecord "1^Locked^QAM256^20^531.0")) ∧
    ((lineFields "1^Locked^SC-QAM^4^5120^35.6^56.0^test^").length ≠ 7 ∧
      NewUpstreamChannelFromLine "1^Locked^SC-QAM^4^5120^35.6^56.0^test^" =
        .error (.malformedRecord "1^Locked^SC-QAM^4^5120^35.6^56.0^test^")) :=
  ⟨⟨by decide, c8_field_count_gate.1 _ (by decide)⟩,
   ⟨by decide, c8_field_count_gate.2 _ (by decide)⟩⟩

/-- C9: decoding the empty raw string yields zero records and no
error, for both the downstream and the upstream decoder. -/
theorem c9_empty_raw_zero_records :
    NewDownstreamChannelsFromResponse "" = .ok [] ∧
    NewUpstreamChannelsFromResponse "" = .ok [] := by
  constructor <;> rfl

/-- Phase-1 response oracle with a successful `LoginResult`, a
`Challenge` and a `Cookie`, but no `PublicKey`. -/
def netLoginOkNoPK : NetResult :=
  .httpResp 200 (.readOk (some [("LoginResponse",
    [("LoginResult", "OK"), ("Challenge", "q9l0h9ieIXKwJlEtTXps"),
     ("Cookie", "uid123")])]))

/-- Phase-1 response oracle with a successful `LoginResult`, a
`PublicKey` and a `Cookie`, but no `Challenge`. -/
def netLoginOkNoCh : NetResult :=
  .httpResp 200 (.readOk (some [("LoginResponse",
    [("LoginResult", "OK"), ("PublicKey", "jXesCa9ek/lI0/R4TNdr"),
     ("Cookie", "uid123")])]))

/-- Phase-1 response oracle with a successful `LoginResult`, a
`PublicKey` and a `Challenge`, but no `Cookie`. -/
def netLoginOkNoCk : NetResult :=
  .httpResp 200 (.readOk (some [("LoginResponse",
    [("LoginResult", "OK"), ("PublicKey", "jXesCa9ek/lI0/R4TNdr"),
     ("Challenge", "q9l0h9ieIXKwJlEtTXps")])]))

/-- C10: when the phase-1 response passes the `LoginResult` check,
`Login` does not fail at that point but proceeds to phase 2 on the
committed jar, whatever keys are missing; and each of `PublicKey`,
`Challenge`, `Cookie` independently defaults to the empty string when
absent (Go map-read semantics): with `PublicKey` missing the key is
derived as HMAC-MD5 keyed by `"" ∥ password` over the (possibly
empty) challenge; with `Challenge` missing the key is derived over
`""` and phase 2 signs the empty challenge; with `Cookie` missing the
empty string is stored as the session id. -/
theorem c10_missing_phase1_fields_default_empty :
    (∀ (j : Jar) (u w : String) (ts1 ts2 : Int) (net1 net2 : NetResult)
       (res1 : Option RespMap) (v : String),
      (doGo j ts1 "Login" (loginParams1 u) net1).1 = (res1, none) →
      (res1.getD []).lookup "LoginResult" = some v → v ≠ "FAILED" →
      Login j u w ts1 ts2 net1 net2 =
        loginPhase2 (phase2Jar j w (res1.getD [])) u
          (((res1.getD []).lookup "Challenge").getD "") ts2 net2 ∧
      (Login j u w ts1 ts2 net1 net2).1 = phase2Jar j w (res1.getD [])) ∧
    (∀ (j : Jar) (u w : String) (ts1 ts2 : Int) (net1 net2 : NetResult)
       (res1 : Option RespMap) (v : String),
      (doGo j ts1 "Login" (loginParams1 u) net1).1 = (res1, none) →
      (res1.getD []).lookup "LoginResult" = some v → v ≠ "FAILED" →
      (res1.getD []).lookup "PublicKey" = none →
      (Login j u w ts1 ts2 net1 net2).1.privateKey =
        some (loginPhase1Key "" w (((res1.getD []).lookup "Challenge").getD ""))) ∧
    (∀ (j : Jar) (u w : String) (ts1 ts2 : Int) (net1 net2 : NetResult)
       (res1 : Option RespMap) (v : String),
      (doGo j ts1 "Login" (loginParams1 u) net1).1 = (res1, none) →
      (res1.getD []).lookup "LoginResult" = some v → v ≠ "FAILED" →
      (res1.getD []).lookup "Challenge" = none →
      (Login j u w ts1 ts2 net1 net2).1.privateKey =
        some (loginPhase1Key (((res1.getD []).lookup "PublicKey").getD "") w "") ∧
      Login j u w ts1 ts2 net1 net2 =
        loginPhase2 (phase2Jar j w (res1.getD [])) u "" ts2 net2) ∧
    (∀ (j : Jar) (u w : String) (ts1 ts2 : Int) (net1 net2 : NetResult)
       (res1 : Option RespMap) (v : String),
      (doGo j ts1 "Login" (loginParams1 u) net1).1 = (res1, none) →
      (res1.getD []).lookup "LoginResult" = some v → v ≠ "FAILED" →
      (res1.getD []).lookup "Cookie" = none →
      (Login j u w ts1 ts2 net1 net2).1.uid = some "") := by
  refine ⟨?_, ?_, ?_, ?_⟩
  · intro j u w ts1 ts2 net1 net2 res1 v hd hlr hv
    have h := Login_phase1_success j u w ts1 ts2 net1 net2 res1 v hd hlr hv
    exact ⟨h, by rw [h, loginPhase2_jar]⟩
  · intro j u w ts1 ts2 net1 net2 res1 v hd hlr hv hpk
    have h := Login_phase1_success j u w ts1 ts2 net1 net2 res1 v hd hlr hv
    rw [h, loginPhase2_jar]
    simp [phase2Jar, setUID, setPrivateKey, hpk]
  · intro j u w ts1 ts2 net1 net2 res1 v hd hlr hv hch
    have h := Login_phase1_success j u w ts1 ts2 net1 net2 res1 v hd hlr hv
    constructor
    · rw [h, loginPhase2_jar]
      simp [phase2Jar, setUID, setPrivateKey, hch]
    · rw [h]
      simp only [hch, Option.getD_none]
  · intro j u w ts1 ts2 net1 net2 res1 v hd hlr hv hck
    have h := Login_phase1_success j u w ts1 ts2 net1 net2 res1 v hd hlr hv
    rw [h, loginPhase2_jar]
    simp [phase2Jar, setUID, setPrivateKey, hck]

set_option maxRecDepth 1000000 in
/-- Witness for C10, one scenario per missing key: no `PublicKey`
(key keyed by `"" ∥ password` over the present challenge, and phase 2
proceeds), no `Challenge` (key over `""`), no `Cookie` (empty session
id stored). -/
theorem c10_missing_phase1_fields_default_empty_witness :
    ((doGo emptyJar 0 "Login" (loginParams1 "admin") netLoginOkNoPK).1 =
        (some [("LoginResult", "OK"), ("Challenge", "q9l0h9ieIXKwJlEtTXps"),
          ("Cookie", "uid123")], none) ∧
      Login emptyJar "admin" "motorola" 0 0 netLoginOkNoPK .transportErr =
        loginPhase2
          (phase2Jar emptyJar "motorola"
            ((some [("LoginResult", "OK"), ("Challenge", "q9l0h9ieIXKwJlEtTXps"),
              ("Cookie", "uid123")] : Option RespMap).getD []))
          "admin" "q9l0h9ieIXKwJlEtTXps" 0 .transportErr) ∧
    ((Login emptyJar "admin" "motorola" 0 0 netLoginOkNoPK .transportErr).1.privateKey =
      some (loginPhase1Key "" "motorola" "q9l0h9ieIXKwJlEtTXps")) ∧
    ((Login emptyJar "admin" "motorola" 0 0 netLoginOkNoCh .transportErr).1.privateKey =
      some (loginPhase1Key "jXesCa9ek/lI0/R4TNdr" "motorola" "")) ∧
    ((Login emptyJar "admin" "motorola" 0 0 netLoginOkNoCk .transportErr).1.uid =
      some "") :=
  ⟨⟨by decide,
    (c10_missing_phase1_fields_default_empty.1 emptyJar "admin" "motorola" 0 0
      netLoginOkNoPK .transportErr
      (some [("LoginResult", "OK"), ("Challenge", "q9l0h9ieIXKwJlEtTXps"),
        ("Cookie", "uid123")]) "OK" (by decide) (by decide) (by decide)).1⟩,
   c10_missing_phase1_fields_default_empty.2.1 emptyJar "admin" "motorola" 0 0
     netLoginOkNoPK .transportErr
     (some [("LoginResult", "OK"), ("Challenge", "q9l0h9ieIXKwJlEtTXps"),
       ("Cookie", "uid123")]) "OK" (by decide) (by decide) (by decide) (by decide),
   (c10_missing_phase1_fields_default_empty.2.2.1 emptyJar "admin" "motorola" 0 0
     netLoginOkNoCh .transportErr
     (some [("LoginResult", "OK"), ("PublicKey", "jXesCa9ek/lI0/R4TNdr"),
       ("Cookie", "uid123")]) "OK" (by decide) (by decide) (by decide) (by decide)).1,
   c10_missing_phase1_fields_default_empty.2.2.2 emptyJar "admin" "motorola" 0 0
     netLoginOkNoCk .transportErr
     (some [("LoginResult", "OK"), ("PublicKey", "jXesCa9ek/lI0/R4TNdr"),
       ("Challenge", "q9l0h9ieIXKwJlEtTXps")]) "OK" (by decide) (by decide)
     (by decide) (by decide)⟩

end MB8600

